import Mathlib

/-!
Verification of the bg-remove-flask service (src/app.py, src/config.py,
src/api/app.py) against its natural-language specification.

The embedding models the request pipeline of the POST /remove-background
handlers and the session-manager functions as pure Lean functions.
Images are modelled as an expression tree (`Img`) recording which PIL
operations were applied, with width, height and mode computed recursively;
the PIL operations used by the code preserve the documented size and mode
behaviour. Strings from the Python code are modelled as lists of
characters.
-/

/-- Pixel mode of an in-memory bitmap, as exposed by PIL `Image.mode`.
Only RGB and RGBA are distinguished by the code under study. -/
inductive Mode where
  | RGB
  | RGBA
  | other
deriving DecidableEq

/-- Abstract image value.  `src w h m` is a decoded upload of the given
dimensions and mode; the remaining constructors record the PIL operations
performed by the handler: `removed` is `rembg.remove` (returns an RGBA
image of the same size), `convertRGBA` is `convert RGBA`, `solid w h c`
is `Image.new RGBA (w, h) c`, `composite bg fg` is
`Image.alpha_composite` (both arguments have equal size; the result takes
that size), and `flattenWhite` is the `Image.new RGB + paste` flattening
at src/app.py lines 174-175. -/
inductive Img where
  | src (width height : Nat) (mode : Mode)
  | removed (i : Img)
  | convertRGBA (i : Img)
  | solid (width height : Nat) (color : List Char)
  | composite (bg fg : Img)
  | flattenWhite (i : Img)
deriving DecidableEq

/-- Width in pixels of an `Img`, following the size behaviour of the PIL
operations used by the code. -/
def Img.width : Img → Nat
  | Img.src w _ _ => w
  | Img.removed i => Img.width i
  | Img.convertRGBA i => Img.width i
  | Img.solid w _ _ => w
  | Img.composite bg _ => Img.width bg
  | Img.flattenWhite i => Img.width i

/-- Height in pixels of an `Img`. -/
def Img.height : Img → Nat
  | Img.src _ h _ => h
  | Img.removed i => Img.height i
  | Img.convertRGBA i => Img.height i
  | Img.solid _ h _ => h
  | Img.composite _ fg => Img.height fg
  | Img.flattenWhite i => Img.height i

/-- Mode of an `Img`: `rembg.remove` returns RGBA, `convert RGBA` and
`Image.new RGBA` produce RGBA, `alpha_composite` of RGBA inputs is RGBA,
and the flattening step produces an RGB image. -/
def Img.mode : Img → Mode
  | Img.src _ _ m => m
  | Img.removed _ => Mode.RGBA
  | Img.convertRGBA _ => Mode.RGBA
  | Img.solid _ _ _ => Mode.RGBA
  | Img.composite _ _ => Mode.RGBA
  | Img.flattenWhite _ => Mode.RGB

/-- An uploaded file as seen by the handler: the client-declared filename
and the decode outcome of its bytes (`none` when `PIL.Image.open` raises
on the byte stream, `some img` when it decodes to `img`). -/
structure UploadedFile where
  filename : List Char
  content : Option Img
deriving DecidableEq

/-- HTTP response produced by the handlers: either a PNG attachment with
its Content-Disposition download name, or a JSON error body
(status, error, message, and the optional debug field of the 500 body). -/
inductive Response where
  | ok (png : Img) (download_name : List Char)
  | err (status : Nat) (error : List Char) (message : List Char)
      (debug : Option (List Char))
deriving DecidableEq

/-- Config.MAX_IMAGE_WIDTH, src/config.py line 22: default 2048 (the
environment override is a deployment concern, out of scope). The value is
never read by either request handler. -/
def MAX_IMAGE_WIDTH : Nat := 2048

/-- Config.ALLOWED_EXTENSIONS, src/config.py line 35 (a Python set;
modelled as a list since only membership is used). -/
def ALLOWED_EXTENSIONS : List (List Char) :=
  ["png".data, "jpg".data, "jpeg".data, "webp".data, "bmp".data, "tiff".data]

/-- The local `allowed_extensions` set hard-coded in src/app.py line 129.
Unlike Config.ALLOWED_EXTENSIONS it does not contain tiff. -/
def allowed_extensions : List (List Char) :=
  ["png".data, "jpg".data, "jpeg".data, "webp".data, "bmp".data]

/-- Python `filename.rsplit(Char.ofNat 46, 1)[1]` guarded by the dot-membership
test: the segment after the last dot of the filename, or `none` when the
filename contains no dot. -/
def afterLastDot (cs : List Char) : Option (List Char) :=
  if '.' ∈ cs then
    some (List.reverse (List.takeWhile (fun c => c != '.') (List.reverse cs)))
  else none

/-- The extension test at src/app.py lines 130-131 and src/api/app.py
lines 85-86: the filename contains a dot and the lowercased segment after
the last dot is in the allow-set. -/
def extOk (allowed : List (List Char)) (filename : List Char) : Bool :=
  match afterLastDot filename with
  | none => false
  | some e => if List.map Char.toLower e ∈ allowed then true else false

/-- Python `background_color.startswith` with a hash argument. -/
def startsWithHash : List Char → Bool
  | [] => false
  | c :: _ => c == '#'

/-- The guard of the compositing block, src/app.py line 161 and
src/api/app.py line 107: the string is truthy (nonempty), starts with a
hash, and has length exactly 7.  No hex-digit check is performed. -/
def compositeGate (background_color : List Char) : Bool :=
  !background_color.isEmpty && startsWithHash background_color &&
    background_color.length == 7

/-- Hex digit test matching the character class of the spec regex and of
PIL ImageColor color parsing: 0-9, a-f, A-F. -/
def isHexDigit (c : Char) : Bool :=
  (48 ≤ c.toNat && c.toNat ≤ 57) || (97 ≤ c.toNat && c.toNat ≤ 102) ||
    (65 ≤ c.toNat && c.toNat ≤ 70)

/-- A hash followed by exactly six hex digits.  For a length-7 string
starting with a hash this is exactly the condition under which PIL
`Image.new RGBA size color` succeeds (ImageColor accepts the form
hash-RRGGBB); otherwise ImageColor raises ValueError. -/
def isHexColor : List Char → Bool
  | '#' :: rest => (List.length rest == 6) && List.all rest isHexDigit
  | _ => false

/-- Converts the model output to RGBA when needed: src/app.py lines
164-165 (`if output_image.mode != RGBA: convert`). -/
def ensureRGBA (o : Img) : Img :=
  if Img.mode o ≠ Mode.RGBA then Img.convertRGBA o else o

/-- The best-effort compositing block, src/app.py lines 160-179 and
src/api/app.py lines 106-125.  When the line-161 guard passes, the code
converts to RGBA, then calls `Image.new RGBA size background_color`; that
call raises ValueError exactly when the color string is not a valid hex
color, the exception is caught by the inner `except` and the function
proceeds with the image as mutated so far (the RGBA conversion already
happened).  When the color parses, the code builds the solid canvas,
alpha-composites the foreground over it, and flattens to RGB over white
using the alpha band as paste mask (lines 168-175); none of those
operations can raise on the equal-size RGBA images involved. -/
def compositeStep (background_color : List Char) (output_image : Img) : Img :=
  if compositeGate background_color then
    if isHexColor background_color then
      Img.flattenWhite
        (Img.composite
          (Img.solid (Img.width (ensureRGBA output_image))
            (Img.height (ensureRGBA output_image)) background_color)
          (ensureRGBA output_image))
    else ensureRGBA output_image
  else output_image

/-- Message of the invalid-file-type 400 body, src/app.py line 134.  The
Python code joins a set, whose iteration order is unspecified; the claims
only depend on the `error` field, so one representative order is fixed. -/
def formatsMsg : List Char :=
  "Supported formats: png, jpg, jpeg, webp, bmp".data

/-- Message of the invalid-file-type 400 body of the api variant,
src/api/app.py line 89 (joins Config.ALLOWED_EXTENSIONS). -/
def apiFormatsMsg : List Char :=
  "Supported formats: png, jpg, jpeg, webp, bmp, tiff".data

/-- Message of the catch-all 500 body, src/app.py line 210. -/
def processFailMsg : List Char :=
  "Failed to process image. Please try again with a different image.".data

/-- Message of the 503 body, src/app.py line 150. -/
def modelUnavailableMsg : List Char :=
  "Background removal model is not available. Please try again.".data

/-- Stages of src/app.py remove_background after a successful decode
(lines 144-202): obtain the session (503 when unavailable, line 146-151),
run `rembg.remove` (line 154), run the best-effort compositing block
(lines 160-179), encode as PNG and return it as an attachment named
`removed_bg_` ++ filename (lines 182-195). -/
def processDecoded (sessionOk : Bool) (background_color fn : List Char)
    (img : Img) : Response :=
  if sessionOk = false then
    Response.err 503 "Model loading failed".data modelUnavailableMsg none
  else
    Response.ok (compositeStep background_color (Img.removed img))
      ("removed_bg_".data ++ fn)

/-- The decode step, src/app.py line 141, and everything after it.  When
`PIL.Image.open` raises on the uploaded bytes, control reaches the
catch-all handler at lines 204-212, which returns a 500 body whose
`debug` field always carries the exception text `excText`. -/
def processContent (sessionOk : Bool) (excText background_color fn : List Char) :
    Option Img → Response
  | none =>
      Response.err 500 "Processing failed".data processFailMsg (some excText)
  | some img => processDecoded sessionOk background_color fn img

/-- The POST /remove-background handler of src/app.py (lines 109-212).
`sessionOk` models whether `get_rembg_session` returns a session (the
session manager itself is modelled separately below), `excText` the text
of the exception reaching the catch-all, the `Option UploadedFile`
argument the `image` entry of `request.files`, and the final argument the
`background_color` form field (empty list when absent, matching the
Python default of the empty string). -/
def remove_background (sessionOk : Bool) (excText : List Char) :
    Option UploadedFile → List Char → Response
  | none, _ =>
      Response.err 400 "No image provided".data
        "Please upload an image file".data none
  | some file, background_color =>
      if file.filename = [] then
        Response.err 400 "No image selected".data
          "Please select an image file".data none
      else if extOk allowed_extensions file.filename = false then
        Response.err 400 "Invalid file type".data formatsMsg none
      else
        processContent sessionOk excText background_color file.filename
          file.content

/-- Stages of src/api/app.py remove_background after a successful decode:
the api variant has no session manager (it calls `rembg.remove`
directly, line 100) and its catch-all 500 body carries the exception text
only when `app.debug` is set (line 157). -/
def apiProcessContent (debugMode : Bool) (excText background_color fn : List Char) :
    Option Img → Response
  | none =>
      Response.err 500 "Processing failed".data processFailMsg
        (if debugMode then some excText else none)
  | some img =>
      Response.ok (compositeStep background_color (Img.removed img))
        ("removed_bg_".data ++ fn)

/-- The POST /remove-background handler of src/api/app.py (lines 65-158).
It validates against Config.ALLOWED_EXTENSIONS (line 86) instead of a
local set and gates the debug field of the 500 body on `app.debug`. -/
def api_remove_background (debugMode : Bool) (excText : List Char) :
    Option UploadedFile → List Char → Response
  | none, _ =>
      Response.err 400 "No image provided".data
        "Please upload an image file".data none
  | some file, background_color =>
      if file.filename = [] then
        Response.err 400 "No image selected".data
          "Please select an image file".data none
      else if extOk ALLOWED_EXTENSIONS file.filename = false then
        Response.err 400 "Invalid file type".data apiFormatsMsg none
      else
        apiProcessContent debugMode excText background_color file.filename
          file.content

/-- The two module-level globals of src/app.py lines 17-19: the session
object (abstracted to an identifier) and the `model_loaded` flag.  The
initial state of the process is `none, false`. -/
structure SessState where
  rembg_session : Option Nat
  model_loaded : Bool
deriving DecidableEq

/-- Outcome of one initialization attempt of the external model, seen
from src/app.py lines 37-41: `new_session` raises, or `new_session`
returns a session `sid` and the warm-up `remove` call raises, or both
succeed. -/
inductive InitOutcome where
  | ctorRaises
  | warmupRaises (sid : Nat)
  | success (sid : Nat)
deriving DecidableEq

/-- initialize_model, src/app.py lines 29-50.  The whole body runs under
`model_lock`, so a call is one atomic transition on the globals.  If the
flag is already set the body is skipped and the current flag value is
returned with the state unchanged (line 50).  Otherwise the attempt runs:
when `new_session` raises nothing was assigned and False is returned;
when the warm-up raises the session global was already assigned (line 37)
but the flag stays false and False is returned; on success both globals
are set and True is returned (lines 43-45). -/
def initialize_model (s : SessState) (o : InitOutcome) : Bool × SessState :=
  if s.model_loaded then (s.model_loaded, s)
  else
    match o with
    | InitOutcome.ctorRaises => (false, s)
    | InitOutcome.warmupRaises sid =>
        (false, { s with rembg_session := some sid })
    | InitOutcome.success sid =>
        (true, { rembg_session := some sid, model_loaded := true })

/-- get_rembg_session, src/app.py lines 52-60: when the flag is not set,
call initialize_model (the retry); return None when it fails, otherwise
return the (post-call) session global. -/
def get_rembg_session (s : SessState) (o : InitOutcome) :
    Option Nat × SessState :=
  if s.model_loaded = false then
    if (initialize_model s o).1 = false then (none, (initialize_model s o).2)
    else ((initialize_model s o).2.rembg_session, (initialize_model s o).2)
  else (s.rembg_session, s)

/-- One observable call on the session manager together with the outcome
the external model library would produce for the attempt (ignored when no
attempt happens).  Calls are serialized by `model_lock`. -/
inductive Event where
  | init (o : InitOutcome)
  | get (o : InitOutcome)
deriving DecidableEq

/-- State transition of one call. -/
def stepState (s : SessState) (e : Event) : SessState :=
  match e with
  | Event.init o => (initialize_model s o).2
  | Event.get o => (get_rembg_session s o).2

/-- State of the globals after a sequence of calls starting from the
process start state `none, false`. -/
def runEvents (es : List Event) : SessState :=
  List.foldl stepState { rembg_session := none, model_loaded := false } es

/-- The invariant tying the two globals together: once `model_loaded` is
set, a session object is stored. -/
def SessInv (s : SessState) : Prop :=
  s.model_loaded = true → s.rembg_session ≠ none

/-- Boolean first-segment test on character lists. -/
def listStartsWith (p s : List Char) : Bool := List.take p.length s == p

/-- Boolean last-segment test on character lists. -/
def listEndsWith (p s : List Char) : Bool :=
  List.take p.length (List.reverse s) == List.reverse p

/-- The download-name shape asserted by the spec for the
Content-Disposition filename: `removed_bg_` at the front and `.png` at
the end. -/
def claimedDownloadForm (dl : List Char) : Bool :=
  listStartsWith ("removed_bg_".data) dl && listEndsWith (".png".data) dl

/-- Formalization of claim C1 as stated: whenever the decoded image of a
processed upload has a longer side above the configured maximum, the
image of the successful response has its longer side capped at that
maximum (one pixel of rounding slack granted). -/
def C1_claim : Prop :=
  ∀ (sOk : Bool) (exc : List Char) (file : UploadedFile) (bg : List Char)
    (img p : Img) (dl : List Char),
    file.content = some img →
    MAX_IMAGE_WIDTH < max (Img.width img) (Img.height img) →
    remove_background sOk exc (some file) bg = Response.ok p dl →
    max (Img.width p) (Img.height p) ≤ MAX_IMAGE_WIDTH + 1

/-- The RGBA-or-identity conversion does not change the width. -/
theorem ensureRGBA_width (o : Img) : Img.width (ensureRGBA o) = Img.width o := by
  unfold ensureRGBA
  split <;> simp [Img.width]

/-- The RGBA-or-identity conversion does not change the height. -/
theorem ensureRGBA_height (o : Img) : Img.height (ensureRGBA o) = Img.height o := by
  unfold ensureRGBA
  split <;> simp [Img.height]

/-- The compositing block never changes the width: the solid canvas is
created with the size of the foreground. -/
theorem compositeStep_width (bg : List Char) (o : Img) :
    Img.width (compositeStep bg o) = Img.width o := by
  unfold compositeStep
  split
  · split
    · simp [Img.width, ensureRGBA_width]
    · exact ensureRGBA_width o
  · rfl

/-- The compositing block never changes the height. -/
theorem compositeStep_height (bg : List Char) (o : Img) :
    Img.height (compositeStep bg o) = Img.height o := by
  unfold compositeStep
  split
  · split
    · simp [Img.height, ensureRGBA_height]
    · exact ensureRGBA_height o
  · rfl

/-- Inversion of the main handler on successful responses: a 200 response
arises only from a present file whose bytes decoded, its image is the
compositing result over the rembg output of the decoded image, and its
download name is the raw filename behind the fixed tag. -/
theorem remove_background_ok_inv (sOk : Bool) (exc : List Char)
    (file : UploadedFile) (bg : List Char) (p : Img) (dl : List Char)
    (hr : remove_background sOk exc (some file) bg = Response.ok p dl) :
    ∃ img, file.content = some img ∧
      p = compositeStep bg (Img.removed img) ∧
      dl = "removed_bg_".data ++ file.filename := by
  simp only [remove_background] at hr
  by_cases h1 : file.filename = []
  · rw [if_pos h1] at hr
    exact Response.noConfusion hr
  · rw [if_neg h1] at hr
    by_cases h2 : extOk allowed_extensions file.filename = false
    · rw [if_pos h2] at hr
      exact Response.noConfusion hr
    · rw [if_neg h2] at hr
      cases hcontent : file.content with
      | none =>
        rw [hcontent] at hr
        simp only [processContent] at hr
        exact Response.noConfusion hr
      | some img =>
        rw [hcontent] at hr
        simp only [processContent, processDecoded] at hr
        by_cases h3 : sOk = false
        · rw [if_pos h3] at hr
          exact Response.noConfusion hr
        · rw [if_neg h3] at hr
          injection hr with hp hdl
          exact ⟨img, rfl, hp.symm, hdl.symm⟩

/-- A loaded flag survives any single call on the session manager. -/
theorem stepState_loaded (s : SessState) (e : Event)
    (h : s.model_loaded = true) : (stepState s e).model_loaded = true := by
  cases e with
  | init o => simp [stepState, initialize_model, h]
  | get o => simp [stepState, get_rembg_session, h]

/-- A loaded flag survives any call sequence on the session manager. -/
theorem foldl_loaded (es : List Event) (s : SessState)
    (h : s.model_loaded = true) :
    (List.foldl stepState s es).model_loaded = true := by
  induction es generalizing s with
  | nil => simpa using h
  | cons e es ih => simpa using ih (stepState s e) (stepState_loaded s e h)

/-- initialize_model preserves the session invariant. -/
theorem initialize_model_inv (s : SessState) (o : InitOutcome)
    (h : SessInv s) : SessInv (initialize_model s o).2 := by
  unfold initialize_model
  by_cases hl : s.model_loaded = true
  · rw [if_pos hl]
    exact h
  · rw [if_neg hl]
    cases o with
    | ctorRaises => exact h
    | warmupRaises sid =>
        intro hload
        simp
    | success sid =>
        intro hload
        simp

/-- A successful initialization from an unloaded state stores a session. -/
theorem initialize_model_success_session (s : SessState) (o : InitOutcome)
    (hl : s.model_loaded = false) (hs : (initialize_model s o).1 = true) :
    (initialize_model s o).2.rembg_session ≠ none := by
  unfold initialize_model at hs ⊢
  rw [if_neg (by simp [hl])] at hs ⊢
  cases o with
  | ctorRaises => simp at hs
  | warmupRaises sid => simp at hs
  | success sid => simp

/-- get_rembg_session preserves the session invariant. -/
theorem get_rembg_session_inv (s : SessState) (o : InitOutcome)
    (h : SessInv s) : SessInv (get_rembg_session s o).2 := by
  unfold get_rembg_session
  by_cases hl : s.model_loaded = false
  · rw [if_pos hl]
    by_cases hr : (initialize_model s o).1 = false
    · rw [if_pos hr]
      exact initialize_model_inv s o h
    · rw [if_neg hr]
      exact initialize_model_inv s o h
  · rw [if_neg hl]
    exact h

/-- The session invariant holds along any call sequence. -/
theorem foldl_inv (es : List Event) (s : SessState) (h : SessInv s) :
    SessInv (List.foldl stepState s es) := by
  induction es generalizing s with
  | nil => simpa using h
  | cons e es ih =>
    have hstep : SessInv (stepState s e) := by
      cases e with
      | init o => exact initialize_model_inv s o h
      | get o => exact get_rembg_session_inv s o h
    simpa using ih (stepState s e) hstep

/-- The session invariant holds in every reachable state. -/
theorem runEvents_inv (es : List Event) : SessInv (runEvents es) := by
  unfold runEvents
  refine foldl_inv es _ ?_
  intro h
  exact absurd h (by decide)

/-- Characterization of the extension test: it passes exactly when the
filename has a dot and the lowercased segment after the last dot is in
the allow-set. -/
theorem extOk_iff (allowed : List (List Char)) (fn : List Char) :
    extOk allowed fn = true ↔
      ∃ e, afterLastDot fn = some e ∧ List.map Char.toLower e ∈ allowed := by
  cases h : afterLastDot fn with
  | none =>
    unfold extOk
    rw [h]
    simp [h]
  | some e =>
    unfold extOk
    rw [h]
    by_cases hmem : List.map Char.toLower e ∈ allowed
    · simp [hmem]
    · simp [hmem]

/-- A filename without a dot fails the extension test for every
allow-set. -/
theorem extOk_no_dot (allowed : List (List Char)) (fn : List Char)
    (h : '.' ∉ fn) : extOk allowed fn = false := by
  unfold extOk afterLastDot
  rw [if_neg h]

/-- C4: session readiness is monotonic.  From any state with
`model_loaded` set (in particular any state after the first successful
initialization), the flag stays set across every further call sequence;
moreover a single initialize_model call returns True and leaves the state
untouched whatever outcome the model library would produce (so no new
session is constructed), and get_rembg_session returns the stored session
with the state untouched. -/
theorem C4_monotonic (s : SessState) (o : InitOutcome) (es : List Event)
    (h : s.model_loaded = true) :
    (List.foldl stepState s es).model_loaded = true ∧
    initialize_model s o = (true, s) ∧
    get_rembg_session s o = (s.rembg_session, s) := by
  refine ⟨foldl_loaded es s h, ?_, ?_⟩
  · simp [initialize_model, h]
  · simp [get_rembg_session, h]

/-- C4 witness: a loaded state with session 1 is unchanged by further
calls, even when a fresh session 2 would be available. -/
theorem C4_monotonic_witness :
    (List.foldl stepState { rembg_session := some 1, model_loaded := true }
      [Event.init InitOutcome.ctorRaises,
        Event.get (InitOutcome.success 2)]).model_loaded = true ∧
    initialize_model { rembg_session := some 1, model_loaded := true }
      (InitOutcome.success 2) =
      (true, { rembg_session := some 1, model_loaded := true }) ∧
    get_rembg_session { rembg_session := some 1, model_loaded := true }
      (InitOutcome.success 2) =
      (some 1, { rembg_session := some 1, model_loaded := true }) :=
  C4_monotonic { rembg_session := some 1, model_loaded := true }
    (InitOutcome.success 2)
    [Event.init InitOutcome.ctorRaises, Event.get (InitOutcome.success 2)] rfl

/-- C9: in every reachable state of the two globals, a set `model_loaded`
flag implies a stored session, and get_rembg_session returns None exactly
when the flag is unset and the initialization retry performed inside the
call fails. -/
theorem C9_session_invariant (es : List Event) (o : InitOutcome) :
    ((runEvents es).model_loaded = true → (runEvents es).rembg_session ≠ none) ∧
    ((get_rembg_session (runEvents es) o).1 = none ↔
      ((runEvents es).model_loaded = false ∧
        (initialize_model (runEvents es) o).1 = false)) := by
  have hinv : SessInv (runEvents es) := runEvents_inv es
  refine ⟨hinv, ?_⟩
  by_cases hl : (runEvents es).model_loaded = false
  · unfold get_rembg_session
    rw [if_pos hl]
    by_cases hr : (initialize_model (runEvents es) o).1 = false
    · rw [if_pos hr]
      simp [hl, hr]
    · rw [if_neg hr]
      have h1 : (initialize_model (runEvents es) o).1 = true := by
        cases hb : (initialize_model (runEvents es) o).1 with
        | false => exact absurd hb hr
        | true => rfl
      have h2 := initialize_model_success_session (runEvents es) o hl h1
      simp [h2, hr]
  · unfold get_rembg_session
    rw [if_neg hl]
    have hlt : (runEvents es).model_loaded = true := by
      cases hb : (runEvents es).model_loaded with
      | false => exact absurd hb hl
      | true => rfl
    have hsn := hinv hlt
    simp [hsn, hl]

/-- C9 witness: after an attempt whose warm-up raised (which leaves a
stale session object with the flag unset), the invariant and the
characterization hold for a further failing retry. -/
theorem C9_session_invariant_witness :
    ((runEvents [Event.init (InitOutcome.warmupRaises 3)]).model_loaded = true →
      (runEvents [Event.init (InitOutcome.warmupRaises 3)]).rembg_session ≠ none) ∧
    ((get_rembg_session (runEvents [Event.init (InitOutcome.warmupRaises 3)])
        InitOutcome.ctorRaises).1 = none ↔
      ((runEvents [Event.init (InitOutcome.warmupRaises 3)]).model_loaded = false ∧
        (initialize_model (runEvents [Event.init (InitOutcome.warmupRaises 3)])
          InitOutcome.ctorRaises).1 = false)) :=
  C9_session_invariant [Event.init (InitOutcome.warmupRaises 3)]
    InitOutcome.ctorRaises

/-- C10: a nonempty filename without any dot is rejected by both
/remove-background handlers with 400 Invalid file type, whatever the
decode outcome of the bytes (the content argument is arbitrary, so the
response is fixed before the bytes are ever decoded), whatever the other
inputs. -/
theorem C10_dotless_rejected (sOk debugMode : Bool) (exc bg : List Char)
    (file : UploadedFile) (hfn : file.filename ≠ [])
    (hnodot : '.' ∉ file.filename) :
    remove_background sOk exc (some file) bg =
      Response.err 400 "Invalid file type".data formatsMsg none ∧
    api_remove_background debugMode exc (some file) bg =
      Response.err 400 "Invalid file type".data apiFormatsMsg none := by
  have h2 := extOk_no_dot allowed_extensions file.filename hnodot
  have h3 := extOk_no_dot ALLOWED_EXTENSIONS file.filename hnodot
  constructor
  · simp only [remove_background]
    rw [if_neg hfn, if_pos h2]
  · simp only [api_remove_background]
    rw [if_neg hfn, if_pos h3]

/-- C10 witness: the bare filename png, equal to an allowed extension but
containing no dot, is rejected by both handlers even for an upload whose
bytes would not decode. -/
theorem C10_dotless_rejected_witness :
    remove_background true [] (some { filename := "png".data, content := none }) [] =
      Response.err 400 "Invalid file type".data formatsMsg none ∧
    api_remove_background false [] (some { filename := "png".data, content := none }) [] =
      Response.err 400 "Invalid file type".data apiFormatsMsg none :=
  C10_dotless_rejected true false [] []
    { filename := "png".data, content := none } (by decide) (by decide)

/-- C8: compositing is best-effort and never fatal.  For any upload that
passes validation and decodes, with the session available, when the
compositing block is entered (the line-161 guard passes) and the attempt
fails (the color string is not a valid hex color, so `Image.new` raises),
the handler still returns a 200 response whose image is exactly the
un-composited rembg output. -/
theorem C8_compositing_best_effort (exc bg : List Char)
    (file : UploadedFile) (img : Img) (hfn : file.filename ≠ [])
    (hext : extOk allowed_extensions file.filename = true)
    (hc : file.content = some img)
    (hgate : compositeGate bg = true) (hhex : isHexColor bg = false) :
    remove_background true exc (some file) bg =
      Response.ok (Img.removed img) ("removed_bg_".data ++ file.filename) := by
  simp only [remove_background]
  rw [if_neg hfn, if_neg (by simp [hext]), hc]
  simp only [processContent, processDecoded]
  rw [if_neg (by simp)]
  have hcs : compositeStep bg (Img.removed img) = Img.removed img := by
    unfold compositeStep
    rw [if_pos hgate, if_neg (by simp [hhex])]
    unfold ensureRGBA
    rw [if_neg (by simp [Img.mode])]
  rw [hcs]

/-- C8 witness: a length-7 color string of non-hex characters enters the
compositing block, the attempt fails, and the request still succeeds
with the plain rembg output. -/
theorem C8_compositing_best_effort_witness :
    remove_background true []
      (some { filename := "a.png".data, content := some (Img.src 10 10 Mode.RGB) })
      ("#GGGGGG".data) =
      Response.ok (Img.removed (Img.src 10 10 Mode.RGB))
        ("removed_bg_".data ++ "a.png".data) :=
  C8_compositing_best_effort [] ("#GGGGGG".data)
    { filename := "a.png".data, content := some (Img.src 10 10 Mode.RGB) }
    (Img.src 10 10 Mode.RGB) (by decide) (by decide) rfl (by decide) (by decide)

/-- C3 counterexample: an upload named bad.png whose bytes do not decode
is answered with status 500 Processing failed by the main handler, not
with the 400 InvalidInput classification the claim asserts. -/
theorem C3_counterexample :
    remove_background true ("broken image".data)
      (some { filename := "bad.png".data, content := none }) [] =
      Response.err 500 "Processing failed".data processFailMsg
        (some ("broken image".data)) ∧
    (500 : Nat) ≠ 400 := by
  constructor
  · decide
  · decide

/-- C3 amended: for every upload passing presence and extension
validation whose bytes fail to decode, the main handler returns the
catch-all 500 Processing failed body (with the exception text in its
debug field); decode failures are not distinguished from downstream
processing failures by status or body shape. -/
theorem C3_decode_failure_500 (sOk : Bool) (exc bg : List Char)
    (file : UploadedFile) (hfn : file.filename ≠ [])
    (hext : extOk allowed_extensions file.filename = true)
    (hc : file.content = none) :
    remove_background sOk exc (some file) bg =
      Response.err 500 "Processing failed".data processFailMsg (some exc) := by
  simp only [remove_background]
  rw [if_neg hfn, if_neg (by simp [hext]), hc]
  rfl

/-- C3 witness: a concrete undecodable upload with a valid extension. -/
theorem C3_decode_failure_500_witness :
    remove_background false ("cannot identify image file".data)
      (some { filename := "f.webp".data, content := none }) [] =
      Response.err 500 "Processing failed".data processFailMsg
        (some ("cannot identify image file".data)) :=
  C3_decode_failure_500 false ("cannot identify image file".data) []
    { filename := "f.webp".data, content := none } (by decide) (by decide) rfl

/-- C5 counterexample: the main handler (src/app.py, deployed with debug
disabled and with no debug-mode condition in its code) answers a request
that reaches the catch-all with a 500 body whose debug field carries the
exception text, which is not the absent field the claim requires outside
debug mode. -/
theorem C5_counterexample :
    remove_background true ("boom".data)
      (some { filename := "x.jpg".data, content := none }) [] =
      Response.err 500 "Processing failed".data processFailMsg
        (some ("boom".data)) ∧
    (some ("boom".data) : Option (List Char)) ≠ none := by
  constructor
  · decide
  · decide

/-- C5 amended: on requests reaching the catch-all 500 handler, the main
variant (src/app.py line 211) always places the exception text in the
debug field of the JSON body, regardless of any debug mode, while the api
variant (src/api/app.py line 157) with debug mode off returns the field
empty. -/
theorem C5_debug_field (sOk : Bool) (exc bg : List Char)
    (file : UploadedFile) (hfn : file.filename ≠ [])
    (hext : extOk allowed_extensions file.filename = true)
    (hext2 : extOk ALLOWED_EXTENSIONS file.filename = true)
    (hc : file.content = none) :
    remove_background sOk exc (some file) bg =
      Response.err 500 "Processing failed".data processFailMsg (some exc) ∧
    api_remove_background false exc (some file) bg =
      Response.err 500 "Processing failed".data processFailMsg none := by
  constructor
  · simp only [remove_background]
    rw [if_neg hfn, if_neg (by simp [hext]), hc]
    rfl
  · simp only [api_remove_background]
    rw [if_neg hfn, if_neg (by simp [hext2]), hc]
    rfl

/-- C5 witness: one undecodable upload, both handlers. -/
theorem C5_debug_field_witness :
    remove_background true ("bad header".data)
      (some { filename := "y.png".data, content := none }) [] =
      Response.err 500 "Processing failed".data processFailMsg
        (some ("bad header".data)) ∧
    api_remove_background false ("bad header".data)
      (some { filename := "y.png".data, content := none }) [] =
      Response.err 500 "Processing failed".data processFailMsg none :=
  C5_debug_field true ("bad header".data) []
    { filename := "y.png".data, content := none }
    (by decide) (by decide) (by decide) rfl

/-- C6 counterexample: for the upload photo.jpg the handler succeeds with
download name removed_bg_photo.jpg, which does not have the
removed_bg_(name).png form the claim asserts (it does not end in .png,
while the returned bytes are PNG). -/
theorem C6_counterexample :
    remove_background true []
      (some { filename := "photo.jpg".data, content := some (Img.src 5 5 Mode.RGB) })
      [] =
      Response.ok (Img.removed (Img.src 5 5 Mode.RGB))
        ("removed_bg_photo.jpg".data) ∧
    claimedDownloadForm ("removed_bg_photo.jpg".data) = false := by
  constructor
  · decide
  · decide

/-- C6 amended: the download name of every successful response is exactly
the tag removed_bg_ followed by the original filename verbatim; the
original extension is kept and no .png suffix is appended (so the name
matches the PNG payload only when the original filename already ended in
.png). -/
theorem C6_download_name (sOk : Bool) (exc : List Char)
    (file : UploadedFile) (bg : List Char) (p : Img) (dl : List Char)
    (hr : remove_background sOk exc (some file) bg = Response.ok p dl) :
    dl = "removed_bg_".data ++ file.filename := by
  obtain ⟨img, _, _, hdl⟩ := remove_background_ok_inv sOk exc file bg p dl hr
  exact hdl

/-- C6 witness: concrete successful request. -/
theorem C6_download_name_witness :
    ("removed_bg_b.png".data : List Char) = "removed_bg_".data ++ "b.png".data :=
  C6_download_name true []
    { filename := "b.png".data, content := some (Img.src 2 3 Mode.RGB) } []
    (Img.removed (Img.src 2 3 Mode.RGB)) ("removed_bg_b.png".data) (by decide)

/-- C7 counterexample: tiff is in the configured allow-set
Config.ALLOWED_EXTENSIONS and is the lowercased last dot-segment of
photo.tiff, yet the main /remove-background handler rejects that upload
with 400 Invalid file type, because src/app.py checks its own hard-coded
set, which omits tiff. -/
theorem C7_counterexample :
    ("tiff".data ∈ ALLOWED_EXTENSIONS) ∧
    afterLastDot ("photo.tiff".data) = some ("tiff".data) ∧
    remove_background true []
      (some { filename := "photo.tiff".data, content := some (Img.src 5 5 Mode.RGB) })
      [] =
      Response.err 400 "Invalid file type".data formatsMsg none := by
  refine ⟨by decide, by decide, by decide⟩

/-- C7 amended: the main handler validates against the hard-coded local
set png, jpg, jpeg, webp, bmp of src/app.py line 129 rather than
Config.ALLOWED_EXTENSIONS (which additionally holds tiff and is used
only by the api variant): the test passes exactly when the lowercased
last dot-segment of the filename is in that local set, and a filename
failing it is rejected with 400 Invalid file type regardless of the byte
content of the upload. -/
theorem C7_extension_check (exc bg : List Char) (file : UploadedFile)
    (hfn : file.filename ≠ []) :
    (extOk allowed_extensions file.filename = true ↔
      ∃ e, afterLastDot file.filename = some e ∧
        List.map Char.toLower e ∈ allowed_extensions) ∧
    (extOk allowed_extensions file.filename = false →
      remove_background true exc (some file) bg =
        Response.err 400 "Invalid file type".data formatsMsg none) := by
  refine ⟨extOk_iff allowed_extensions file.filename, ?_⟩
  intro hbad
  simp only [remove_background]
  rw [if_neg hfn, if_pos hbad]

/-- C7 witness: the upper-case extension of photo.PNG is accepted by the
characterization, and the rejection branch is available for failing
names. -/
theorem C7_extension_check_witness :
    (extOk allowed_extensions ("photo.PNG".data) = true ↔
      ∃ e, afterLastDot ("photo.PNG".data) = some e ∧
        List.map Char.toLower e ∈ allowed_extensions) ∧
    (extOk allowed_extensions ("photo.PNG".data) = false →
      remove_background true [] (some { filename := "photo.PNG".data, content := none }) [] =
        Response.err 400 "Invalid file type".data formatsMsg none) :=
  C7_extension_check [] [] { filename := "photo.PNG".data, content := none }
    (by decide)

/-- C1 counterexample: the claim fails on the code because neither
handler contains a resize step.  A decodable 4096 by 100 upload, whose
longer side exceeds MAX_IMAGE_WIDTH = 2048, is processed as-is and the
successful response image keeps the longer side 4096, beyond the capped
value the claim asserts. -/
theorem C1_counterexample : ¬ C1_claim := by
  intro h
  have hresp : remove_background true []
      (some { filename := "big.png".data, content := some (Img.src 4096 100 Mode.RGB) })
      [] =
      Response.ok (Img.removed (Img.src 4096 100 Mode.RGB))
        ("removed_bg_".data ++ "big.png".data) := by decide
  have hout := h true []
    { filename := "big.png".data, content := some (Img.src 4096 100 Mode.RGB) }
    [] (Img.src 4096 100 Mode.RGB) (Img.removed (Img.src 4096 100 Mode.RGB))
    ("removed_bg_".data ++ "big.png".data) rfl (by decide) hresp
  exact absurd hout (by decide)

/-- C1 amended: the pipeline performs no resizing at all.
Config.MAX_IMAGE_WIDTH and MAX_IMAGE_HEIGHT are never consulted by either
handler; the decoded image is handed to inference at its original
dimensions, and the image of every successful response has exactly the
width and height of the decoded upload, above or below the cap alike. -/
theorem C1_no_resize (sOk : Bool) (exc : List Char) (file : UploadedFile)
    (bg : List Char) (img p : Img) (dl : List Char)
    (hc : file.content = some img)
    (hr : remove_background sOk exc (some file) bg = Response.ok p dl) :
    Img.width p = Img.width img ∧ Img.height p = Img.height img := by
  obtain ⟨img2, hc2, hp, _⟩ := remove_background_ok_inv sOk exc file bg p dl hr
  rw [hc] at hc2
  injection hc2 with hi
  subst hi
  subst hp
  exact ⟨compositeStep_width bg (Img.removed img),
    compositeStep_height bg (Img.removed img)⟩

/-- C1 witness: a concrete oversized request passes through with its
dimensions intact. -/
theorem C1_no_resize_witness :
    Img.width (Img.removed (Img.src 4096 100 Mode.RGB)) =
      Img.width (Img.src 4096 100 Mode.RGB) ∧
    Img.height (Img.removed (Img.src 4096 100 Mode.RGB)) =
      Img.height (Img.src 4096 100 Mode.RGB) :=
  C1_no_resize true []
    { filename := "big2.png".data, content := some (Img.src 4096 100 Mode.RGB) } []
    (Img.src 4096 100 Mode.RGB) (Img.removed (Img.src 4096 100 Mode.RGB))
    ("removed_bg_".data ++ "big2.png".data) rfl (by decide)

/-- C2 counterexample: the length-7 string of a hash followed by GGGGGG
does not match the hex pattern of the claim, yet it passes the line-161
guard and so does trigger the compositing attempt. -/
theorem C2_counterexample :
    compositeGate ("#GGGGGG".data) = true ∧
    isHexColor ("#GGGGGG".data) = false := by
  constructor
  · decide
  · decide

/-- C2 amended: the compositing block is entered exactly when the
supplied string is a hash followed by exactly six arbitrary characters
(nonempty, leading hash, length 7) -- the six characters are not checked
to be hex digits.  A string passing the guard without being a valid hex
color makes the attempt fail inside the block, the failure is swallowed,
and the pipeline keeps the un-composited rembg output, so a successfully
composited image is produced only for strings matching the
hash-RRGGBB hex pattern. -/
theorem C2_gate_characterization (bg : List Char) (img : Img) :
    (compositeGate bg = true ↔ ∃ cs, bg = '#' :: cs ∧ List.length cs = 6) ∧
    (isHexColor bg = false →
      compositeStep bg (Img.removed img) = Img.removed img) := by
  constructor
  · cases bg with
    | nil => simp [compositeGate]
    | cons c cs =>
      simp only [compositeGate, startsWithHash, List.isEmpty, Bool.not_false,
        Bool.true_and, Bool.and_eq_true, beq_iff_eq, List.length_cons]
      constructor
      · rintro ⟨hc, hlen⟩
        exact ⟨cs, by rw [hc], by omega⟩
      · rintro ⟨cs2, heq, hlen⟩
        cases heq
        exact ⟨rfl, by omega⟩
  · intro hhex
    unfold compositeStep
    by_cases hgate : compositeGate bg = true
    · rw [if_pos hgate, if_neg (by simp [hhex])]
      unfold ensureRGBA
      rw [if_neg (by simp [Img.mode])]
    · rw [if_neg hgate]

/-- C2 witness: a concrete guard-passing non-hex string leaves the rembg
output untouched. -/
theorem C2_gate_characterization_witness :
    (compositeGate ("#GGGGGH".data) = true ↔
      ∃ cs, "#GGGGGH".data = '#' :: cs ∧ List.length cs = 6) ∧
    (isHexColor ("#GGGGGH".data) = false →
      compositeStep ("#GGGGGH".data) (Img.removed (Img.src 4 4 Mode.RGB)) =
        Img.removed (Img.src 4 4 Mode.RGB)) :=
  C2_gate_characterization ("#GGGGGH".data) (Img.src 4 4 Mode.RGB)
